import Mathlib

/-!
Verification of the android-mcp-emulator repository.

Shallow embedding of the relevant code:
* src/server.py   — the AndroidEmulatorMCP class: process runner, device
  session state, the device-scoped tool handlers and the tool dispatch.
* src/cert_installer.py — the CertificateInstaller process runner, bounds
  parsing and the script main entry point.
* src/test_functionality.py — the tester process runner and main entry point.

External processes are modelled by an environment oracle: each command line
is mapped to the behaviour of the launched process (how long it runs and what
it returns), and subprocess.run is a function of that behaviour and the
timeout argument.  File reads are a second oracle.  These oracles make the
handlers pure functions of the environment.
-/

set_option maxHeartbeats 1000000

/-! ### Python-level string helpers -/

/-- Python truthiness of an optional string: None and the empty string are
falsy (this is what `if not self.current_device:` tests). -/
def optStrTruthy : Option String → Bool
  | none => false
  | some s => !s.isEmpty

/-- Python `a or dflt` for an optional string default. -/
def optStrOr (o : Option String) (dflt : String) : String :=
  match o with
  | none => dflt
  | some s => if s.isEmpty then dflt else s

/-- Whitespace characters recognised by Python's str.strip. -/
def isPyWs (c : Char) : Bool :=
  c = ' ' || c = '\n' || c = '\t' || c = '\r'

/-- Python str.strip: drop whitespace from both ends. -/
def pyStrip (s : String) : String :=
  String.mk (((s.data.dropWhile isPyWs).reverse.dropWhile isPyWs).reverse)

/-- Substring test on character lists (Python `pat in s`). -/
def listContainsSub (pat : List Char) : List Char → Bool
  | [] => pat.isEmpty
  | c :: rest => pat.isPrefixOf (c :: rest) || listContainsSub pat rest

/-- Python `pat in s` substring containment. -/
def strContains (s pat : String) : Bool :=
  listContainsSub pat.data s.data

/-- Fuel-driven left-to-right non-overlapping substring replacement, the
model of Python str.replace for a non-empty pattern.  The fuel is at least
the length of the input, and every step consumes at least one character, so
the fuel never runs out on the inputs we feed it. -/
def replaceFuel (pat rep : List Char) : Nat → List Char → List Char
  | _, [] => []
  | 0, l => l
  | fuel + 1, c :: rest =>
    if pat.isPrefixOf (c :: rest) && !pat.isEmpty then
      rep ++ replaceFuel pat rep fuel (List.drop (pat.length - 1) rest)
    else
      c :: replaceFuel pat rep fuel rest

/-- Python str.replace (all occurrences, scanning left to right). -/
def pyReplace (s pat rep : String) : String :=
  String.mk (replaceFuel pat.data rep.data (s.data.length + 1) s.data)

/-- Python str.split on a single newline separator (keeps empty pieces). -/
def splitLinesAux : List Char → List Char → List String
  | [], acc => [String.mk acc.reverse]
  | c :: r, acc =>
    if c = '\n' then String.mk acc.reverse :: splitLinesAux r []
    else splitLinesAux r (c :: acc)

/-- Python s.split("\n"). -/
def splitLines (s : String) : List String :=
  splitLinesAux s.data []

/-- Python "\n".join. -/
def joinLines : List String → String
  | [] => ""
  | [s] => s
  | s :: r => s ++ "\n" ++ joinLines r

/-- Python int() on a string of decimal digits, accumulator form. -/
def digitsToNatAux (acc : Nat) : List Char → Nat
  | [] => acc
  | c :: r => digitsToNatAux (acc * 10 + (c.toNat - 48)) r

/-- Python int() on a string of decimal digits. -/
def digitsToNat (l : List Char) : Nat := digitsToNatAux 0 l

/-! ### Process model

An external process, once launched on a given command line, runs for some
duration and produces captured stdout, stderr and an exit status; or the
launch itself fails (for example the executable is missing).  subprocess.run
waits for the process, and raises TimeoutExpired when a timeout was passed
and the process runs longer than it. -/

/-- Behaviour of the external process launched by one command line. -/
inductive ProcSpec where
  | runs (duration : Nat) (out err : String) (code : Int)
  | failsToLaunch (msg : String)
deriving DecidableEq

/-- Result of one subprocess.run call: normal completion, the TimeoutExpired
exception, or another exception from the launch. -/
inductive SubprocResult where
  | completed (out err : String) (code : Int)
  | timedOut
  | excRaised (msg : String)
deriving DecidableEq

/-- The world the program runs in: what each launched command line does, and
what each local file read yields (error = the raised exception text). -/
structure Env where
  procs : List String → ProcSpec
  fileExists : String → Bool
  readFile : String → Except String String

/-- Model of subprocess.run(cmd, capture_output=True, text=True, timeout=t):
with a timeout, a process running longer than the timeout raises
TimeoutExpired; without one, the call waits for completion however long the
process runs. -/
def subprocessRun (env : Env) (cmd : List String) (timeout : Option Nat) : SubprocResult :=
  match env.procs cmd with
  | .failsToLaunch m => .excRaised m
  | .runs d o e c =>
    match timeout with
    | some t => if t < d then .timedOut else .completed o e c
    | none => .completed o e c

/-! ### Server state and process runner (src/server.py) -/

/-- The mutable fields of AndroidEmulatorMCP set in __init__: the selected
serial (None initially) and the resolved adb path. -/
structure MCP where
  current_device : Option String
  adb_path : String
deriving DecidableEq

/-- __init__: no device selected; the adb path comes from _find_adb, which
probes the environment, so it is a parameter here. -/
def mcpInit (adbPath : String) : MCP :=
  { current_device := none, adb_path := adbPath }

/-- The truthiness test the handlers and the runner apply to the serial. -/
def devTruthy (st : MCP) : Bool := optStrTruthy st.current_device

/-- Command line built by _run_adb: adb path, then -s serial when the held
serial is truthy, then the arguments. -/
def buildCmd (st : MCP) (args : List String) : List String :=
  st.adb_path :: ((if devTruthy st then ["-s", st.current_device.getD ""] else []) ++ args)

/-- AndroidEmulatorMCP._run_adb: run the command with the given timeout and
return (stdout, stderr, returncode); TimeoutExpired becomes a synthetic
("", "Command timed out after Ts", 1) triple and any other exception becomes
("", str(e), 1).  The call never raises. -/
def serverRunAdb (env : Env) (st : MCP) (args : List String) (timeout : Nat) :
    String × String × Int :=
  match subprocessRun env (buildCmd st args) (some timeout) with
  | .completed o e c => (o, e, c)
  | .timedOut => ("", "Command timed out after " ++ toString timeout ++ "s", 1)
  | .excRaised m => ("", m, 1)

/-! ### Tester state and process runner (src/test_functionality.py) -/

/-- AndroidEmulatorTester fields. -/
structure Tester where
  adb_path : String
  device_serial : Option String
deriving DecidableEq

/-- Command line built by the tester run_adb. -/
def testerBuildCmd (t : Tester) (args : List String) : List String :=
  t.adb_path :: ((if optStrTruthy t.device_serial then ["-s", t.device_serial.getD ""] else []) ++ args)

/-- AndroidEmulatorTester.run_adb: same timeout handling as the server. -/
def testerRunAdb (env : Env) (t : Tester) (args : List String) (timeout : Nat) :
    String × String × Int :=
  match subprocessRun env (testerBuildCmd t args) (some timeout) with
  | .completed o e c => (o, e, c)
  | .timedOut => ("", "Command timed out after " ++ toString timeout ++ "s", 1)
  | .excRaised m => ("", m, 1)

/-! ### Certificate installer process runner (src/cert_installer.py) -/

/-- CertificateInstaller fields. -/
structure CertIns where
  adb_path : String
  device_serial : Option String
deriving DecidableEq

/-- Command line built by CertificateInstaller.run_adb. -/
def certBuildCmd (ci : CertIns) (args : List String) : List String :=
  ci.adb_path :: ((if optStrTruthy ci.device_serial then ["-s", ci.device_serial.getD ""] else []) ++ args)

/-- CertificateInstaller.run_adb: calls subprocess.run with NO timeout and
no exception handling, so an exception from the launch propagates (the error
side of the Except) and no timeout can ever occur. -/
def certRunAdb (env : Env) (ci : CertIns) (args : List String) :
    Except String (String × String × Int) :=
  match subprocessRun env (certBuildCmd ci args) none with
  | .completed o e c => .ok (o, e, c)
  | .timedOut => .error "subprocess.TimeoutExpired"
  | .excRaised m => .error m

/-! ### MCP response content -/

/-- The content items a handler returns (TextContent / ImageContent). -/
inductive Content where
  | text (s : String)
  | image (data : String) (mimeType : String)
deriving DecidableEq

/-- Text of the first content item (Python hierarchy_result[0].text; the
handlers that are inspected this way only ever produce text content). -/
def firstText : List Content → String
  | Content.text s :: _ => s
  | _ => ""

/-- One recorded invocation of the process runner: the argument list handed
to _run_adb and the timeout used. -/
abbrev AdbCall := List String × Nat

/-! ### base64 (model of base64.b64encode over the UTF-8 bytes) -/

/-- UTF-8 bytes of one character, as plain naturals. -/
def utf8Bytes (c : Char) : List Nat :=
  let n := c.toNat
  if n < 128 then [n]
  else if n < 2048 then [192 + n / 64, 128 + n % 64]
  else if n < 65536 then [224 + n / 4096, 128 + (n / 64) % 64, 128 + n % 64]
  else [240 + n / 262144, 128 + (n / 4096) % 64, 128 + (n / 64) % 64, 128 + n % 64]

/-- The base64 alphabet. -/
def b64Char (n : Nat) : Char :=
  ("ABCDEFGHIJKLMNOPQRSTUVWXYZabcdefghijklmnopqrstuvwxyz0123456789+/".data).getD n '='

/-- Standard base64 encoding of a byte list with padding. -/
def b64encodeBytes : List Nat → List Char
  | [] => []
  | [a] => [b64Char (a / 4), b64Char ((a % 4) * 16), '=', '=']
  | [a, b] => [b64Char (a / 4), b64Char ((a % 4) * 16 + b / 16), b64Char ((b % 16) * 4), '=']
  | a :: b :: c :: r =>
    [b64Char (a / 4), b64Char ((a % 4) * 16 + b / 16),
     b64Char ((b % 16) * 4 + c / 64), b64Char (c % 64)] ++ b64encodeBytes r

/-- base64.b64encode(...).decode() over a file content string. -/
def b64encode (s : String) : String :=
  String.mk (b64encodeBytes (s.data.flatMap utf8Bytes))

/-! ### XML model (xml.etree.ElementTree)

The source only ever walks root.iter() — the flat preorder list of elements —
and reads attributes, so the parsed document is represented directly by that
list.  ElementTree details not exercised by the source (entity references,
single-quoted attributes, CDATA, namespaces) are outside the model; a parse
error is reported as the error side of an Except, which models the
ET.ParseError raised by fromstring. -/

/-- One parsed element: its tag and attributes (text content is never read
by the source and is dropped). -/
structure XmlElem where
  tag : String
  attrs : List (String × String)
deriving DecidableEq

/-- elem.get(key): the attribute value, or None when absent. -/
def XmlElem.get (e : XmlElem) (k : String) : Option String :=
  e.attrs.lookup k

/-- Name characters of an XML tag or attribute name. -/
def isXmlNameChar (c : Char) : Bool :=
  c.isAlphanum || c = '-' || c = '_' || c = '.' || c = ':'

/-- Skip XML whitespace. -/
def pSkipWs : List Char → List Char
  | c :: r => if isPyWs c then pSkipWs r else c :: r
  | [] => []

/-- Longest name prefix and the rest. -/
def pName : List Char → List Char × List Char
  | c :: r =>
    if isXmlNameChar c then
      let (n, rest) := pName r
      (c :: n, rest)
    else ([], c :: r)
  | [] => ([], [])

/-- Attribute value up to the closing double quote. -/
def pUntilQuote : List Char → Option (List Char × List Char)
  | [] => none
  | '"' :: r => some ([], r)
  | c :: r =>
    match pUntilQuote r with
    | none => none
    | some (v, rest) => some (c :: v, rest)

/-- Drop input through the first occurrence of question-mark greater-than
(the end of an XML declaration). -/
def dropPastQM : List Char → List Char
  | [] => []
  | '?' :: '>' :: r => r
  | _ :: r => dropPastQM r

/-- Drop input through the first greater-than sign. -/
def dropPastGt : List Char → List Char
  | [] => []
  | '>' :: r => r
  | _ :: r => dropPastGt r

/-- Drop text content up to (not including) the next less-than sign. -/
def dropUntilLt : List Char → List Char
  | [] => []
  | '<' :: r => '<' :: r
  | _ :: r => dropUntilLt r

/-- Parse the attribute list inside a start tag, stopping at the slash or
the closing angle bracket. -/
def pAttrs : Nat → List Char → Except String (List (String × String) × List Char)
  | 0, _ => .error "internal fuel exhausted"
  | fuel + 1, l =>
    match pSkipWs l with
    | [] => .error "syntax error"
    | c :: r =>
      if c = '>' ∨ c = '/' then .ok ([], c :: r)
      else
        match pName (c :: r) with
        | ([], _) => .error "syntax error"
        | (nm, r1) =>
          match pSkipWs r1 with
          | '=' :: r2 =>
            match pSkipWs r2 with
            | '"' :: r3 =>
              match pUntilQuote r3 with
              | none => .error "unclosed token"
              | some (v, r4) =>
                match pAttrs fuel r4 with
                | .error m => .error m
                | .ok (rest, r5) => .ok ((String.mk nm, String.mk v) :: rest, r5)
            | _ => .error "syntax error"
          | _ => .error "syntax error"

/-- Main parse loop over the document, producing the elements in document
(preorder) order; stack holds the open tags, rootDone records that the root
element has been closed. -/
def parseLoop : Nat → List Char → List String → List XmlElem → Bool →
    Except String (List XmlElem)
  | 0, _, _, _, _ => .error "internal fuel exhausted"
  | fuel + 1, l, stack, acc, rootDone =>
    match l with
    | [] =>
      if rootDone ∧ stack.isEmpty then .ok acc else .error "no element found"
    | c :: r =>
      if isPyWs c then parseLoop fuel r stack acc rootDone
      else if c = '<' then
        match r with
        | '?' :: r2 => parseLoop fuel (dropPastQM r2) stack acc rootDone
        | '!' :: r2 => parseLoop fuel (dropPastGt r2) stack acc rootDone
        | '/' :: r2 =>
          match pName r2 with
          | ([], _) => .error "syntax error"
          | (nm, r3) =>
            match pSkipWs r3 with
            | '>' :: r4 =>
              match stack with
              | [] => .error "syntax error"
              | top :: st =>
                if String.mk nm = top then
                  parseLoop fuel r4 st acc (rootDone || st.isEmpty)
                else .error "mismatched tag"
            | _ => .error "syntax error"
        | _ =>
          match pName r with
          | ([], _) => .error "syntax error"
          | (nm, r1) =>
            if rootDone then .error "junk after document element"
            else
              match pAttrs fuel r1 with
              | .error m => .error m
              | .ok (attrs, r2) =>
                match r2 with
                | '/' :: '>' :: r3 =>
                  parseLoop fuel r3 stack (acc ++ [⟨String.mk nm, attrs⟩])
                    (rootDone || stack.isEmpty)
                | '>' :: r3 =>
                  parseLoop fuel r3 (String.mk nm :: stack)
                    (acc ++ [⟨String.mk nm, attrs⟩]) rootDone
                | _ => .error "syntax error"
      else
        if stack.isEmpty then .error "syntax error"
        else parseLoop fuel (dropUntilLt (c :: r)) stack acc rootDone

/-- ET.fromstring: parse a document and return its elements in the order
root.iter() yields them; a malformed document is a ParseError. -/
def fromstring (s : String) : Except String (List XmlElem) :=
  parseLoop (s.data.length + 2) s.data [] [] false

/-! ### Element lookup (server.py _find_element) -/

/-- The filter criteria dictionary: a field is none when the key is absent
from the arguments. -/
structure Criteria where
  text : Option String
  resource_id : Option String
  class_name : Option String
  content_desc : Option String
deriving DecidableEq

/-- One criterion check: absent key leaves match untouched, present key
requires the attribute to equal the value exactly (None attribute compares
unequal to any string, as in Python). -/
def critOk (crit attr : Option String) : Bool :=
  match crit with
  | none => true
  | some v => attr == some v

/-- The match flag computed for one element by the _find_element loop. -/
def elemMatch (c : Criteria) (e : XmlElem) : Bool :=
  critOk c.text (e.get "text") &&
  critOk c.resource_id (e.get "resource-id") &&
  critOk c.class_name (e.get "class") &&
  critOk c.content_desc (e.get "content-desc")

/-- any(k in criteria for k in [...]): at least one criterion supplied. -/
def anySupplied (c : Criteria) : Bool :=
  c.text.isSome || c.resource_id.isSome || c.class_name.isSome || c.content_desc.isSome

/-- The elements the loop appends a record for. -/
def matchedNodes (c : Criteria) (ns : List XmlElem) : List XmlElem :=
  ns.filter (fun e => elemMatch c e && anySupplied c)

/-- The dictionary appended to matches for one element. -/
structure MatchRec where
  text : Option String
  resourceId : Option String
  className : Option String
  bounds : Option String
  clickable : Option String
  enabled : Option String
deriving DecidableEq

/-- Build the match record of an element. -/
def toMatchRec (e : XmlElem) : MatchRec :=
  { text := e.get "text", resourceId := e.get "resource-id",
    className := e.get "class", bounds := e.get "bounds",
    clickable := e.get "clickable", enabled := e.get "enabled" }

/-- The matches list _find_element builds from the element list. -/
def findMatches (c : Criteria) (ns : List XmlElem) : List MatchRec :=
  (matchedNodes c ns).map toMatchRec

/-- Textual JSON value of an optional string (null when absent).  The JSON
renderer is a textual model of json.dumps; no claim depends on the exact
layout, only on the head line of the response. -/
def jsonOpt : Option String → String
  | none => "null"
  | some s => "\"" ++ s ++ "\""

/-- Textual JSON object of one match record. -/
def jsonMatch (m : MatchRec) : String :=
  "\x7b\"text\": " ++ jsonOpt m.text ++ ", \"resource-id\": " ++ jsonOpt m.resourceId ++
  ", \"class\": " ++ jsonOpt m.className ++ ", \"bounds\": " ++ jsonOpt m.bounds ++
  ", \"clickable\": " ++ jsonOpt m.clickable ++ ", \"enabled\": " ++ jsonOpt m.enabled ++ "\x7d"

/-- Textual JSON array of the matches. -/
def jsonMatches (ms : List MatchRec) : String :=
  "[" ++ joinLines (ms.map jsonMatch) ++ "]"

/-- The response text _find_element formats from the matches list: the
"no matches" sentence is a normal outcome, not an error. -/
def renderFind (ms : List MatchRec) : String :=
  if ms.isEmpty then "No matching elements found."
  else "Found " ++ toString ms.length ++ " matching element(s):\n" ++ jsonMatches ms

/-- Textual JSON object for a string-to-string dictionary (model of
json.dumps(info, indent=2) in _get_device_info). -/
def jsonDumpObj (kvs : List (String × String)) : String :=
  "\x7b\n" ++ joinLines (kvs.map (fun kv => "  \"" ++ kv.1 ++ "\": \"" ++ kv.2 ++ "\"")) ++ "\n\x7d"

/-! ### Bounds parsing -/

/-- Maximal runs of decimal digits in a character list: the model of
re.findall over the digit pattern in _tap_element. -/
def runsAux : List Char → List Char → List (List Char)
  | [], acc => if acc.isEmpty then [] else [acc.reverse]
  | c :: r, acc =>
    if c.isDigit then runsAux r (c :: acc)
    else if acc.isEmpty then runsAux r []
    else acc.reverse :: runsAux r []

/-- All digit runs of a string, left to right. -/
def digitRuns (s : String) : List (List Char) :=
  runsAux s.data []

/-- _tap_element bounds handling: take the digit runs, require at least
four, convert the first four with int() and take the integer midpoint of
the rectangle. -/
def tapPointFromBounds (b : String) : Option (Nat × Nat) :=
  match digitRuns b with
  | x1 :: y1 :: x2 :: y2 :: _ =>
    some ((digitsToNat x1 + digitsToNat x2) / 2, (digitsToNat y1 + digitsToNat y2) / 2)
  | _ => none

/-- Longest digit prefix and the rest. -/
def takeDigits : List Char → List Char × List Char
  | [] => ([], [])
  | c :: r =>
    if c.isDigit then
      let (d, rest) := takeDigits r
      (c :: d, rest)
    else ([], c :: r)

/-- The bracketed-bounds part of the CertificateInstaller.find_element_bounds
regular expression, applied to a bounds attribute value: bracket, digits,
comma, digits, bracket pair, digits, comma, digits, bracket. -/
def certBoundsParseL (l : List Char) : Option (Nat × Nat × Nat × Nat) :=
  match l with
  | '[' :: r0 =>
    match takeDigits r0 with
    | ([], _) => none
    | (d1, r1) =>
      match r1 with
      | ',' :: r2 =>
        match takeDigits r2 with
        | ([], _) => none
        | (d2, r3) =>
          match r3 with
          | ']' :: '[' :: r4 =>
            match takeDigits r4 with
            | ([], _) => none
            | (d3, r5) =>
              match r5 with
              | ',' :: r6 =>
                match takeDigits r6 with
                | ([], _) => none
                | (d4, r7) =>
                  match r7 with
                  | ']' :: _ =>
                    some (digitsToNat d1, digitsToNat d2, digitsToNat d3, digitsToNat d4)
                  | _ => none
              | _ => none
          | _ => none
      | _ => none
  | _ => none

/-- The regular-expression bounds match on a string. -/
def certBoundsParse (b : String) : Option (Nat × Nat × Nat × Nat) :=
  certBoundsParseL b.data

/-- CertificateInstaller.find_element_bounds midpoint: the centre of the
matched rectangle. -/
def certElementCenter (b : String) : Option (Nat × Nat) :=
  match certBoundsParse b with
  | some (x1, y1, x2, y2) => some ((x1 + x2) / 2, (y1 + y2) / 2)
  | none => none

/-! ### Device-scoped tool handlers (src/server.py)

Each handler returns its content list together with the list of process
runner invocations it performed (argument list and timeout), so that "no
external process is invoked" is the statement that the second component is
empty.  Only _select_device mutates the state and is given a distinct
return type. -/

/-- _select_device: unconditionally overwrite the held serial. -/
def selectDevice (st : MCP) (serial : String) : MCP × List Content × List AdbCall :=
  ({ st with current_device := some serial },
   [Content.text ("Selected device: " ++ serial)], [])

/-- _get_device_info: query four properties and the screen size, collecting
the ones whose query succeeded. -/
def getDeviceInfo (env : Env) (st : MCP) : List Content × List AdbCall :=
  if ¬ devTruthy st then
    ([Content.text "No device selected. Use list_devices and select_device first."], [])
  else
    let props := ["ro.product.model", "ro.build.version.release",
                  "ro.build.version.sdk", "ro.product.cpu.abi"]
    let step := fun (acc : List (String × String) × List AdbCall) (prop : String) =>
      let r := serverRunAdb env st ["shell", "getprop", prop] 30
      (acc.1 ++ (if r.2.2 = 0 then [(prop, pyStrip r.1)] else []),
       acc.2 ++ [(["shell", "getprop", prop], 30)])
    let infoCalls := props.foldl step ([], [])
    let r := serverRunAdb env st ["shell", "wm", "size"] 30
    let info := infoCalls.1 ++ (if r.2.2 = 0 then [("screen_size", pyStrip r.1)] else [])
    ([Content.text ("Device Information:\n" ++ jsonDumpObj info)],
     infoCalls.2 ++ [(["shell", "wm", "size"], 30)])

/-- _capture_screenshot: screencap on the device, pull, read and embed. -/
def captureScreenshot (env : Env) (st : MCP) (savePath : Option String) :
    List Content × List AdbCall :=
  if ¬ devTruthy st then ([Content.text "No device selected."], [])
  else
    let call1 : AdbCall := (["shell", "screencap", "-p", "/sdcard/screenshot.png"], 30)
    let r1 := serverRunAdb env st call1.1 30
    if r1.2.2 ≠ 0 then
      ([Content.text ("Failed to capture screenshot: " ++ r1.2.1)], [call1])
    else
      let localPath := optStrOr savePath "/tmp/android_screenshot.png"
      let call2 : AdbCall := (["pull", "/sdcard/screenshot.png", localPath], 30)
      let r2 := serverRunAdb env st call2.1 30
      if r2.2.2 ≠ 0 then
        ([Content.text ("Failed to pull screenshot: " ++ r2.2.1)], [call1, call2])
      else
        match env.readFile localPath with
        | .ok dat =>
          ([Content.text ("Screenshot captured successfully. Saved to: " ++ localPath),
            Content.image (b64encode dat) "image/png"], [call1, call2])
        | .error m =>
          ([Content.text ("Error reading screenshot: " ++ m)], [call1, call2])

/-- _get_ui_hierarchy: dump the UI on the device, pull the XML, read it. -/
def getUiHierarchy (env : Env) (st : MCP) : List Content × List AdbCall :=
  if ¬ devTruthy st then ([Content.text "No device selected."], [])
  else
    let call1 : AdbCall := (["shell", "uiautomator", "dump", "/sdcard/window_dump.xml"], 30)
    let r1 := serverRunAdb env st call1.1 30
    if r1.2.2 ≠ 0 then
      ([Content.text ("Failed to dump UI: " ++ r1.2.1)], [call1])
    else
      let call2 : AdbCall := (["pull", "/sdcard/window_dump.xml", "/tmp/ui_hierarchy.xml"], 30)
      let r2 := serverRunAdb env st call2.1 30
      if r2.2.2 ≠ 0 then
        ([Content.text ("Failed to pull UI dump: " ++ r2.2.1)], [call1, call2])
      else
        match env.readFile "/tmp/ui_hierarchy.xml" with
        | .ok xml => ([Content.text ("UI Hierarchy:\n" ++ xml)], [call1, call2])
        | .error m => ([Content.text ("Error reading UI hierarchy: " ++ m)], [call1, call2])

/-- _find_element, split so that _tap_element can reuse the matches list:
the second component carries the parsed matches when parsing succeeded
(json.loads of json.dumps recovers exactly that list). -/
def findElementCore (env : Env) (st : MCP) (c : Criteria) :
    (List Content × List AdbCall) × Option (List MatchRec) :=
  let h := getUiHierarchy env st
  if h.1.isEmpty || strContains (firstText h.1) "Error" then (h, none)
  else
    let xml := pyReplace (firstText h.1) "UI Hierarchy:\n" ""
    match fromstring xml with
    | .error m =>
      (([Content.text ("Error parsing UI hierarchy: " ++ m)], h.2), none)
    | .ok ns =>
      let ms := findMatches c ns
      (([Content.text (renderFind ms)], h.2), some ms)

/-- _find_element as the dispatcher sees it. -/
def findElement (env : Env) (st : MCP) (c : Criteria) : List Content × List AdbCall :=
  (findElementCore env st c).1

/-- _tap_coordinates: input tap at the (truncated) coordinates. -/
def tapCoordinates (env : Env) (st : MCP) (x y : Int) : List Content × List AdbCall :=
  if ¬ devTruthy st then ([Content.text "No device selected."], [])
  else
    let args := ["shell", "input", "tap", toString x, toString y]
    let r := serverRunAdb env st args 30
    if r.2.2 ≠ 0 then ([Content.text ("Failed to tap: " ++ r.2.1)], [(args, 30)])
    else
      ([Content.text ("Tapped at coordinates (" ++ toString x ++ ", " ++ toString y ++ ")")],
       [(args, 30)])

/-- _tap_element: find the element, recover the matches from the find
response (the source serialises them to JSON and parses them back, which is
the identity on the list), take the bounds of the first match, extract the
digit runs and tap the midpoint. -/
def tapElement (env : Env) (st : MCP) (c : Criteria) : List Content × List AdbCall :=
  let core := findElementCore env st c
  let cs := core.1.1
  let calls := core.1.2
  if strContains (firstText cs) "No matching elements" || strContains (firstText cs) "Error" then
    (cs, calls)
  else
    match core.2 with
    | none => (cs, calls)
    | some ms =>
      match ms with
      | [] => ([Content.text "No elements found to tap."], calls)
      | m :: _ =>
        match m.bounds with
        | none => ([Content.text "Element has no bounds information."], calls)
        | some b =>
          if b.isEmpty then ([Content.text "Element has no bounds information."], calls)
          else
            match tapPointFromBounds b with
            | some (cx, cy) =>
              let t := tapCoordinates env st (cx : Int) (cy : Int)
              (t.1, calls ++ t.2)
            | none => ([Content.text ("Could not parse bounds: " ++ b)], calls)

/-- _swipe. -/
def swipe (env : Env) (st : MCP) (sx sy ex ey : Int) (dur : Int) :
    List Content × List AdbCall :=
  if ¬ devTruthy st then ([Content.text "No device selected."], [])
  else
    let args := ["shell", "input", "swipe", toString sx, toString sy,
                 toString ex, toString ey, toString dur]
    let r := serverRunAdb env st args 30
    if r.2.2 ≠ 0 then ([Content.text ("Failed to swipe: " ++ r.2.1)], [(args, 30)])
    else
      ([Content.text ("Swiped from (" ++ toString sx ++ ", " ++ toString sy ++ ") to (" ++
        toString ex ++ ", " ++ toString ey ++ ")")], [(args, 30)])

/-- The escaping _input_text applies before handing the text to the shell:
spaces become the percent-s token and single quotes gain a backslash. -/
def escapeInputText (t : String) : String :=
  pyReplace (pyReplace t " " "%s") "'" "\\'"

/-- _input_text. -/
def inputText (env : Env) (st : MCP) (t : String) : List Content × List AdbCall :=
  if ¬ devTruthy st then ([Content.text "No device selected."], [])
  else
    let args := ["shell", "input", "text", escapeInputText t]
    let r := serverRunAdb env st args 30
    if r.2.2 ≠ 0 then ([Content.text ("Failed to input text: " ++ r.2.1)], [(args, 30)])
    else ([Content.text ("Entered text: " ++ t)], [(args, 30)])

/-- The key_codes dictionary of _press_key. -/
def keyCodes : List (String × String) :=
  [("back", "4"), ("home", "3"), ("recent", "187"), ("menu", "82"),
   ("power", "26"), ("volume_up", "24"), ("volume_down", "25")]

/-- _press_key: look the symbolic key up (the codes are non-empty strings,
so the Python falsiness test on the lookup is the None test). -/
def pressKey (env : Env) (st : MCP) (key : String) : List Content × List AdbCall :=
  if ¬ devTruthy st then ([Content.text "No device selected."], [])
  else
    match keyCodes.lookup key with
    | none => ([Content.text ("Unknown key: " ++ key)], [])
    | some kc =>
      let args := ["shell", "input", "keyevent", kc]
      let r := serverRunAdb env st args 30
      if r.2.2 ≠ 0 then ([Content.text ("Failed to press key: " ++ r.2.1)], [(args, 30)])
      else ([Content.text ("Pressed " ++ key ++ " key")], [(args, 30)])

/-- _install_app (timeout 120). -/
def installApp (env : Env) (st : MCP) (apkPath : String) : List Content × List AdbCall :=
  if ¬ devTruthy st then ([Content.text "No device selected."], [])
  else if ¬ env.fileExists apkPath then
    ([Content.text ("APK file not found: " ++ apkPath)], [])
  else
    let args := ["install", "-r", apkPath]
    let r := serverRunAdb env st args 120
    if r.2.2 ≠ 0 then ([Content.text ("Failed to install app: " ++ r.2.1)], [(args, 120)])
    else
      ([Content.text ("Successfully installed: " ++ apkPath ++ "\n" ++ r.1)], [(args, 120)])

/-- _launch_app. -/
def launchApp (env : Env) (st : MCP) (pkg : String) : List Content × List AdbCall :=
  if ¬ devTruthy st then ([Content.text "No device selected."], [])
  else
    let args := ["shell", "monkey", "-p", pkg, "-c", "android.intent.category.LAUNCHER", "1"]
    let r := serverRunAdb env st args 30
    if r.2.2 ≠ 0 then ([Content.text ("Failed to launch app: " ++ r.2.1)], [(args, 30)])
    else ([Content.text ("Launched app: " ++ pkg)], [(args, 30)])

/-- _stop_app. -/
def stopApp (env : Env) (st : MCP) (pkg : String) : List Content × List AdbCall :=
  if ¬ devTruthy st then ([Content.text "No device selected."], [])
  else
    let args := ["shell", "am", "force-stop", pkg]
    let r := serverRunAdb env st args 30
    if r.2.2 ≠ 0 then ([Content.text ("Failed to stop app: " ++ r.2.1)], [(args, 30)])
    else ([Content.text ("Stopped app: " ++ pkg)], [(args, 30)])

/-- _clear_app_data. -/
def clearAppData (env : Env) (st : MCP) (pkg : String) : List Content × List AdbCall :=
  if ¬ devTruthy st then ([Content.text "No device selected."], [])
  else
    let args := ["shell", "pm", "clear", pkg]
    let r := serverRunAdb env st args 30
    if r.2.2 ≠ 0 then ([Content.text ("Failed to clear app data: " ++ r.2.1)], [(args, 30)])
    else
      ([Content.text ("Cleared data for: " ++ pkg ++ "\n" ++ r.1)], [(args, 30)])

/-- _list_packages (the filter test is Python truthiness). -/
def listPackages (env : Env) (st : MCP) (filterStr : Option String) :
    List Content × List AdbCall :=
  if ¬ devTruthy st then ([Content.text "No device selected."], [])
  else
    let args := ["shell", "pm", "list", "packages"] ++
      (if optStrTruthy filterStr then ["|", "grep", filterStr.getD ""] else [])
    let r := serverRunAdb env st args 30
    if r.2.2 ≠ 0 then ([Content.text ("Failed to list packages: " ++ r.2.1)], [(args, 30)])
    else
      let pkgs := ((splitLines (pyStrip r.1)).filter (fun l => !l.isEmpty)).map
        (fun l => pyReplace l "package:" "")
      let base := "Found " ++ toString pkgs.length ++ " package(s):\n" ++
        joinLines (pkgs.take 100)
      let result := if pkgs.length > 100 then
          base ++ "\n... and " ++ toString (pkgs.length - 100) ++ " more"
        else base
      ([Content.text result], [(args, 30)])

/-- _setup_proxy. -/
def setupProxy (env : Env) (st : MCP) (host : String) (port : Int) :
    List Content × List AdbCall :=
  if ¬ devTruthy st then ([Content.text "No device selected."], [])
  else
    let proxy := host ++ ":" ++ toString port
    let args := ["shell", "settings", "put", "global", "http_proxy", proxy]
    let r := serverRunAdb env st args 30
    if r.2.2 ≠ 0 then ([Content.text ("Failed to set proxy: " ++ r.2.1)], [(args, 30)])
    else
      ([Content.text ("Proxy configured: " ++ proxy ++
        "\nNote: You may need to restart apps or reboot for changes to take effect.")],
       [(args, 30)])

/-- _clear_proxy. -/
def clearProxy (env : Env) (st : MCP) : List Content × List AdbCall :=
  if ¬ devTruthy st then ([Content.text "No device selected."], [])
  else
    let args := ["shell", "settings", "put", "global", "http_proxy", ":0"]
    let r := serverRunAdb env st args 30
    if r.2.2 ≠ 0 then ([Content.text ("Failed to clear proxy: " ++ r.2.1)], [(args, 30)])
    else ([Content.text "Proxy settings cleared."], [(args, 30)])

/-- The manual-completion instructions _install_certificate returns. -/
def certInstructions : String :=
  "Certificate pushed to device: /sdcard/Download/ca_cert.crt\n\nTo complete installation:\n1. Open Settings app\n2. Navigate to Security > Encryption & credentials > Install a certificate\n3. Select 'CA certificate'\n4. Browse to Downloads folder\n5. Select the certificate file\n6. Confirm installation\n\nFor Android 11+, you may need to:\n- Use adb root access for system certificate installation, or\n- Install as user certificate (apps may not trust it by default)\n\nAlternative automated approach:\nUse 'tap_element' and other UI tools to navigate through Settings automatically.\n"

/-- _install_certificate (the server tool, not the standalone script). -/
def installCertificate (env : Env) (st : MCP) (certPath : String) :
    List Content × List AdbCall :=
  if ¬ devTruthy st then ([Content.text "No device selected."], [])
  else if ¬ env.fileExists certPath then
    ([Content.text ("Certificate file not found: " ++ certPath)], [])
  else
    let args := ["push", certPath, "/sdcard/Download/ca_cert.crt"]
    let r := serverRunAdb env st args 30
    if r.2.2 ≠ 0 then ([Content.text ("Failed to push certificate: " ++ r.2.1)], [(args, 30)])
    else ([Content.text certInstructions], [(args, 30)])

/-- _execute_shell (timeout 60; the stderr block is appended only when the
captured stderr is truthy). -/
def executeShell (env : Env) (st : MCP) (command : String) : List Content × List AdbCall :=
  if ¬ devTruthy st then ([Content.text "No device selected."], [])
  else
    let args := ["shell", command]
    let r := serverRunAdb env st args 60
    let base := "Command: " ++ command ++ "\nReturn Code: " ++ toString r.2.2 ++
      "\n\nOutput:\n" ++ r.1
    let result := if r.2.1.isEmpty then base else base ++ "\n\nError Output:\n" ++ r.2.1
    ([Content.text result], [(args, 60)])

/-- _pull_file. -/
def pullFile (env : Env) (st : MCP) (remotePath localPath : String) :
    List Content × List AdbCall :=
  if ¬ devTruthy st then ([Content.text "No device selected."], [])
  else
    let args := ["pull", remotePath, localPath]
    let r := serverRunAdb env st args 30
    if r.2.2 ≠ 0 then ([Content.text ("Failed to pull file: " ++ r.2.1)], [(args, 30)])
    else
      ([Content.text ("File pulled successfully:\nFrom: " ++ remotePath ++ "\nTo: " ++
        localPath ++ "\n" ++ r.1)], [(args, 30)])

/-- _push_file. -/
def pushFile (env : Env) (st : MCP) (localPath remotePath : String) :
    List Content × List AdbCall :=
  if ¬ devTruthy st then ([Content.text "No device selected."], [])
  else if ¬ env.fileExists localPath then
    ([Content.text ("Local file not found: " ++ localPath)], [])
  else
    let args := ["push", localPath, remotePath]
    let r := serverRunAdb env st args 30
    if r.2.2 ≠ 0 then ([Content.text ("Failed to push file: " ++ r.2.1)], [(args, 30)])
    else
      ([Content.text ("File pushed successfully:\nFrom: " ++ localPath ++ "\nTo: " ++
        remotePath ++ "\n" ++ r.1)], [(args, 30)])

/-! ### Tool dispatch (src/server.py call_tool) -/

/-- The tools the dispatch chain recognises, in the order of the chain. -/
inductive ToolId where
  | listDevicesT | selectDeviceT | getDeviceInfoT | captureScreenshotT
  | getUiHierarchyT | findElementT | tapCoordinatesT | tapElementT
  | swipeT | inputTextT | pressKeyT | installAppT | launchAppT | stopAppT
  | clearAppDataT | listPackagesT | setupProxyT | clearProxyT
  | installCertificateT | executeShellT | pullFileT | pushFileT
deriving DecidableEq

/-- The name-matching chain of call_tool. -/
def toolIdOf (name : String) : Option ToolId :=
  if name == "list_devices" then some .listDevicesT
  else if name == "select_device" then some .selectDeviceT
  else if name == "get_device_info" then some .getDeviceInfoT
  else if name == "capture_screenshot" then some .captureScreenshotT
  else if name == "get_ui_hierarchy" then some .getUiHierarchyT
  else if name == "find_element" then some .findElementT
  else if name == "tap_coordinates" then some .tapCoordinatesT
  else if name == "tap_element" then some .tapElementT
  else if name == "swipe" then some .swipeT
  else if name == "input_text" then some .inputTextT
  else if name == "press_key" then some .pressKeyT
  else if name == "install_app" then some .installAppT
  else if name == "launch_app" then some .launchAppT
  else if name == "stop_app" then some .stopAppT
  else if name == "clear_app_data" then some .clearAppDataT
  else if name == "list_packages" then some .listPackagesT
  else if name == "setup_proxy" then some .setupProxyT
  else if name == "clear_proxy" then some .clearProxyT
  else if name == "install_certificate" then some .installCertificateT
  else if name == "execute_shell" then some .executeShellT
  else if name == "pull_file" then some .pullFileT
  else if name == "push_file" then some .pushFileT
  else none

/-- Outcome of evaluating a matched branch of the chain: the handler's
content list, or a raised exception (argument KeyError, handler failure,
anything at all). -/
inductive PyOutcome where
  | ok (contents : List Content)
  | raised (msg : String)

/-- call_tool: the body of the try block matches the name and evaluates the
branch; the whole body is wrapped so that a raised exception becomes an
Error text response, and an unmatched name yields the Unknown-tool text
(that branch raises nothing).  The function is total: no outcome escapes
the dispatch boundary. -/
def callTool (name : String) (run : ToolId → PyOutcome) : List Content :=
  match toolIdOf name with
  | some t =>
    match run t with
    | .ok r => r
    | .raised m => [Content.text ("Error: " ++ m)]
  | none => [Content.text ("Unknown tool: " ++ name)]

/-! ### Standalone script entry points -/

/-- cert_installer.py main: fewer than two argv entries exits 1 (usage), a
missing certificate file exits 1; otherwise install_certificate runs and
main prints a success or a failure banner and falls off the end, so the
interpreter exits 0 regardless of the workflow outcome. -/
def certMainExit (fileExists : String → Bool) (installSuccess : Bool)
    (argv : List String) : Nat :=
  match argv with
  | _prog :: certPath :: _rest =>
    if ¬ fileExists certPath then 1
    else
      let _ := installSuccess
      0
  | _ => 1

/-- Recorded outcome of one test of the harness (True / False / "skipped"
in the results dictionary). -/
inductive TestOutcome where
  | pass | fail | skipped
deriving DecidableEq

/-- The failed counter of run_all_tests. -/
def failedCount : List TestOutcome → Nat
  | [] => 0
  | .fail :: r => failedCount r + 1
  | _ :: r => failedCount r

/-- test_functionality.py main: run_all_tests returns failed == 0 and main
exits 0 exactly on that. -/
def testMainExit (results : List TestOutcome) : Nat :=
  if failedCount results = 0 then 0 else 1

/-! ### Escaping predicates and concrete instances used by the theorems -/

/-- Character-wise expansion: the effect of one single-character str.replace. -/
def expandChar (p : Char) (rep : List Char) : List Char → List Char
  | [] => []
  | c :: r => (if p = c then rep else [c]) ++ expandChar p rep r

/-- No space character occurs in the string. -/
def noSpaceChar (s : String) : Bool :=
  s.data.all (fun c => !(c == ' '))

/-- Every single quote is immediately preceded by a backslash (prev is the
character before the current position). -/
def qbAux (prev : Option Char) : List Char → Bool
  | [] => true
  | c :: r => (if c = '\'' then prev == some '\\' else true) && qbAux (some c) r

/-- Every single quote of the string carries a preceding backslash. -/
def singleQuotesEscaped (s : String) : Bool :=
  qbAux none s.data

/-- Every quote character — single or double — is immediately preceded by a
backslash. -/
def qbAllAux (prev : Option Char) : List Char → Bool
  | [] => true
  | c :: r => (if c = '\'' ∨ c = '"' then prev == some '\\' else true) && qbAllAux (some c) r

/-- The claim's reading of "escapes spaces and quote characters": no bare
space remains and every quote character carries a preceding backslash. -/
def escapedClaimOk (s : String) : Bool :=
  noSpaceChar s && qbAllAux none s.data

/-- A bounds attribute of the literal bracket form, built from the four
digit strings. -/
def boundsStr (a b c d : List Char) : String :=
  String.mk ('[' :: (a ++ ',' :: (b ++ ']' :: '[' :: (c ++ ',' :: (d ++ [']'])))))

/-- An environment in which every launched process completes instantly and
successfully with empty output, and file reads fail. -/
def envOk : Env :=
  { procs := fun _ => .runs 0 "" "" 0,
    fileExists := fun _ => true,
    readFile := fun _ => .error "IOError" }

/-- An environment whose processes run for 100 seconds and then succeed. -/
def envSlow : Env :=
  { procs := fun _ => .runs 100 "done" "" 0,
    fileExists := fun _ => true,
    readFile := fun _ => .error "IOError" }

/-- A UI dump document with one tappable node. -/
def demoDumpXml : String :=
  "<hierarchy><node text=\"OK\" bounds=\"[10,20][110,120]\"/></hierarchy>"

/-- An environment in which every process succeeds and reading the pulled
UI dump yields the demo document. -/
def envDump : Env :=
  { procs := fun _ => .runs 0 "" "" 0,
    fileExists := fun _ => true,
    readFile := fun _ => .ok demoDumpXml }

/-- A state with a device selected. -/
def stSel : MCP := { current_device := some "emulator-5554", adb_path := "adb" }

/-- Criteria selecting the demo node by exact text. -/
def demoCrit : Criteria := ⟨some "OK", none, none, none⟩

/-- The demo node as a parsed element. -/
def demoElem : XmlElem := ⟨"node", [("text", "OK")]⟩

/-! ### Helper lemmas -/

theorem critOk_iff (cr at_ : Option String) :
    critOk cr at_ = true ↔ (cr = none ∨ at_ = cr) := by
  cases cr with
  | none => simp [critOk]
  | some v => simp [critOk]

/-! ### C2 -/

/-- Claim C2: select_device unconditionally overwrites the held serial with
no validation and no process invocation, reading it back yields exactly the
serial, and the initial held serial is the None sentinel.  (Proved for every
string, hence in particular for every non-empty one.) -/
theorem select_device_then_current (st : MCP) (serial p : String) :
    (selectDevice st serial).1.current_device = some serial ∧
    selectDevice st serial =
      ({ st with current_device := some serial },
       [Content.text ("Selected device: " ++ serial)], []) ∧
    (mcpInit p).current_device = none :=
  ⟨rfl, rfl, rfl⟩

/-! ### C4 -/

/-- Claim C4: _find_element returns exactly the elements for which every
supplied criterion equals the corresponding attribute (so a differing value
— substring or case variant — never matches), matches nothing when no
criterion is supplied, and reports an empty match set with the normal
"No matching elements found." text, which is not an Error response. -/
theorem find_element_exact_match (c : Criteria) (ns : List XmlElem) (e : XmlElem) :
    (e ∈ matchedNodes c ns ↔
      e ∈ ns ∧ anySupplied c = true ∧
      (c.text = none ∨ e.get "text" = c.text) ∧
      (c.resource_id = none ∨ e.get "resource-id" = c.resource_id) ∧
      (c.class_name = none ∨ e.get "class" = c.class_name) ∧
      (c.content_desc = none ∨ e.get "content-desc" = c.content_desc)) ∧
    (∀ v w, c.text = some v → e.get "text" = some w → w ≠ v →
      e ∉ matchedNodes c ns) ∧
    (anySupplied c = false → findMatches c ns = []) ∧
    (findMatches c ns = [] →
      renderFind (findMatches c ns) = "No matching elements found." ∧
      strContains (renderFind (findMatches c ns)) "Error" = false) := by
  refine ⟨?_, ?_, ?_, ?_⟩
  · simp only [matchedNodes, List.mem_filter, Bool.and_eq_true, elemMatch, critOk_iff]
    tauto
  · intro v w hv hw hne hmem
    rcases List.mem_filter.mp hmem with ⟨-, hp⟩
    simp only [Bool.and_eq_true, elemMatch] at hp
    have h3 := hp.1.1.1.1
    rw [hv] at h3
    simp [critOk, hw] at h3
    exact hne h3
  · intro h
    simp [findMatches, matchedNodes, h]
  · intro h
    rw [h]
    exact ⟨rfl, rfl⟩

/-- Concrete instance of C4: the node with exact text OK is a member of the
matched nodes of the criteria asking for text OK. -/
theorem find_element_exact_match_witness :
    demoElem ∈ matchedNodes demoCrit [demoElem] :=
  ((find_element_exact_match demoCrit [demoElem] demoElem).1).mpr
    ⟨List.mem_singleton.mpr rfl, rfl, Or.inr rfl, Or.inl rfl, Or.inl rfl, Or.inl rfl⟩

/-! ### C5 -/

/-- Claim C5 (amended): the server and test-harness process runners turn a
process that outlives the timeout into the synthetic ("", timed-out message,
1) triple without raising; the certificate installer's runner passes no
timeout to subprocess.run, so it simply waits and returns the process's own
result, and no timeout outcome is possible on its path. -/
theorem runner_timeout_behavior (env : Env) (args : List String) (T d : Nat)
    (o e : String) (cd : Int) :
    (∀ st : MCP, env.procs (buildCmd st args) = .runs d o e cd → T < d →
      serverRunAdb env st args T =
        ("", "Command timed out after " ++ toString T ++ "s", 1)) ∧
    (∀ t : Tester, env.procs (testerBuildCmd t args) = .runs d o e cd → T < d →
      testerRunAdb env t args T =
        ("", "Command timed out after " ++ toString T ++ "s", 1)) ∧
    (∀ ci : CertIns, env.procs (certBuildCmd ci args) = .runs d o e cd →
      certRunAdb env ci args = .ok (o, e, cd)) ∧
    (∀ cmd, subprocessRun env cmd none ≠ .timedOut) := by
  refine ⟨?_, ?_, ?_, ?_⟩
  · intro st h hlt
    simp [serverRunAdb, subprocessRun, h, hlt]
  · intro t h hlt
    simp [testerRunAdb, subprocessRun, h, hlt]
  · intro ci h
    simp [certRunAdb, subprocessRun, h]
  · intro cmd h
    cases hp : env.procs cmd <;> simp [subprocessRun, hp] at h

/-- Concrete instance of C5: with every process taking 100 time units, the
server and tester runners at timeout 30 return the synthetic failure triple,
while the certificate installer's runner returns the process result. -/
theorem runner_timeout_behavior_witness :
    serverRunAdb envSlow (mcpInit "adb") ["shell", "ls"] 30 =
      ("", "Command timed out after 30s", 1) ∧
    testerRunAdb envSlow ⟨"adb", none⟩ ["shell", "ls"] 30 =
      ("", "Command timed out after 30s", 1) ∧
    certRunAdb envSlow ⟨"adb", none⟩ ["shell", "ls"] = .ok ("done", "", 0) :=
  ⟨(runner_timeout_behavior envSlow ["shell", "ls"] 30 100 "done" "" 0).1
      (mcpInit "adb") rfl (by decide),
   (runner_timeout_behavior envSlow ["shell", "ls"] 30 100 "done" "" 0).2.1
      ⟨"adb", none⟩ rfl (by decide),
   (runner_timeout_behavior envSlow ["shell", "ls"] 30 100 "done" "" 0).2.2.1
      ⟨"adb", none⟩ rfl⟩

/-- Counterexample to C5 as stated: the certificate installer's runner, for
a process running 100 time units (far beyond the 30-unit timeout the other
runners would apply), returns exit status 0 with empty stderr — not a
non-zero status with a timeout message. -/
theorem cert_runner_no_timeout :
    envSlow.procs (certBuildCmd ⟨"adb", none⟩ ["shell", "ls"]) = .runs 100 "done" "" 0 ∧
    30 < 100 ∧
    certRunAdb envSlow ⟨"adb", none⟩ ["shell", "ls"] = .ok ("done", "", 0) ∧
    strContains "" "timed out" = false :=
  ⟨rfl, by decide, rfl, rfl⟩

/-! ### C6 -/

/-- Claim C6: press_key maps the symbolic key names of the closed enum to
fixed numeric key-event codes — back issues exactly keyevent 4 through the
process runner — and any name outside the enum yields the Unknown-key text
with no process call. -/
theorem press_key_codes (env : Env) (st : MCP) (key : String) :
    (devTruthy st = true →
      (pressKey env st "back").2 = [(["shell", "input", "keyevent", "4"], 30)]) ∧
    (devTruthy st = true →
      key ∉ ["back", "home", "recent", "menu", "power", "volume_up", "volume_down"] →
      pressKey env st key = ([Content.text ("Unknown key: " ++ key)], [])) ∧
    keyCodes.lookup "back" = some "4" := by
  refine ⟨?_, ?_, rfl⟩
  · intro h
    simp [pressKey, h, keyCodes, List.lookup]
    split <;> rfl
  · intro h hk
    simp only [List.mem_cons, List.not_mem_nil, or_false, not_or] at hk
    obtain ⟨h1, h2, h3, h4, h5, h6, h7⟩ := hk
    have e1 : (key == "back") = false := beq_eq_false_iff_ne.mpr h1
    have e2 : (key == "home") = false := beq_eq_false_iff_ne.mpr h2
    have e3 : (key == "recent") = false := beq_eq_false_iff_ne.mpr h3
    have e4 : (key == "menu") = false := beq_eq_false_iff_ne.mpr h4
    have e5 : (key == "power") = false := beq_eq_false_iff_ne.mpr h5
    have e6 : (key == "volume_up") = false := beq_eq_false_iff_ne.mpr h6
    have e7 : (key == "volume_down") = false := beq_eq_false_iff_ne.mpr h7
    have hl : keyCodes.lookup key = none := by
      simp [keyCodes, List.lookup, e1, e2, e3, e4, e5, e6, e7]
    simp [pressKey, h, hl]

/-- Concrete instance of C6. -/
theorem press_key_codes_witness :
    (pressKey envOk stSel "back").2 = [(["shell", "input", "keyevent", "4"], 30)] ∧
    pressKey envOk stSel "unknown" = ([Content.text "Unknown key: unknown"], []) :=
  ⟨(press_key_codes envOk stSel "unknown").1 rfl,
   (press_key_codes envOk stSel "unknown").2.1 rfl (by decide)⟩

/-! ### C7 -/

/-- Claim C7: an unmatched tool name yields the Unknown-tool text response
from the normal (non-raising) branch; a raised exception from a matched
branch is caught at the dispatch boundary and becomes an Error text
response; a normal branch result passes through — in all cases call_tool
returns a content list, so one bad request cannot terminate the loop. -/
theorem dispatch_unknown_and_errors (name : String) (run : ToolId → PyOutcome) :
    (toolIdOf name = none →
      callTool name run = [Content.text ("Unknown tool: " ++ name)]) ∧
    (∀ t m, toolIdOf name = some t → run t = .raised m →
      callTool name run = [Content.text ("Error: " ++ m)]) ∧
    (∀ t r, toolIdOf name = some t → run t = .ok r → callTool name run = r) := by
  refine ⟨?_, ?_, ?_⟩
  · intro h
    simp [callTool, h]
  · intro t m h1 h2
    simp [callTool, h1, h2]
  · intro t r h1 h2
    simp [callTool, h1, h2]

/-- Concrete instance of C7: an unknown name and a raising press_key branch. -/
theorem dispatch_unknown_and_errors_witness :
    callTool "frobnicate" (fun _ => PyOutcome.raised "boom") =
      [Content.text "Unknown tool: frobnicate"] ∧
    callTool "press_key" (fun _ => PyOutcome.raised "boom") =
      [Content.text "Error: boom"] :=
  ⟨(dispatch_unknown_and_errors "frobnicate" (fun _ => PyOutcome.raised "boom")).1 rfl,
   (dispatch_unknown_and_errors "press_key" (fun _ => PyOutcome.raised "boom")).2.1
      ToolId.pressKeyT "boom" rfl rfl⟩

/-! ### C9 -/

/-- Claim C9 (amended): the certificate installer script exits 1 on a usage
error or a missing certificate file, and exits 0 whenever the file exists —
regardless of whether the installation workflow succeeded; the test harness
exits 0 exactly when no test failed. -/
theorem script_exit_codes :
    (∀ (fe : String → Bool) (s : Bool) (argv : List String),
      argv.length < 2 → certMainExit fe s argv = 1) ∧
    (∀ (fe : String → Bool) (s : Bool) (p cert : String) (rest : List String),
      fe cert = false → certMainExit fe s (p :: cert :: rest) = 1) ∧
    (∀ (fe : String → Bool) (s : Bool) (p cert : String) (rest : List String),
      fe cert = true → certMainExit fe s (p :: cert :: rest) = 0) ∧
    (∀ rs, failedCount rs = 0 → testMainExit rs = 0) ∧
    (∀ rs, failedCount rs ≠ 0 → testMainExit rs = 1) := by
  refine ⟨?_, ?_, ?_, ?_, ?_⟩
  · intro fe s argv h
    match argv with
    | [] => rfl
    | [a] => rfl
    | a :: b :: r => simp [List.length] at h; omega
  · intro fe s p cert rest h
    simp [certMainExit, h]
  · intro fe s p cert rest h
    simp [certMainExit, h]
  · intro rs h
    simp [testMainExit, h]
  · intro rs h
    simp [testMainExit, h]

/-- Concrete instance of C9. -/
theorem script_exit_codes_witness :
    certMainExit (fun _ => true) true ["cert_installer.py"] = 1 ∧
    certMainExit (fun _ => false) true ["cert_installer.py", "ca.pem"] = 1 ∧
    certMainExit (fun _ => true) true ["cert_installer.py", "ca.pem"] = 0 ∧
    testMainExit [TestOutcome.pass, TestOutcome.skipped] = 0 ∧
    testMainExit [TestOutcome.pass, TestOutcome.fail] = 1 :=
  ⟨script_exit_codes.1 (fun _ => true) true ["cert_installer.py"] (by decide),
   script_exit_codes.2.1 (fun _ => false) true "cert_installer.py" "ca.pem" [] rfl,
   script_exit_codes.2.2.1 (fun _ => true) true "cert_installer.py" "ca.pem" [] rfl,
   script_exit_codes.2.2.2.1 [TestOutcome.pass, TestOutcome.skipped] rfl,
   script_exit_codes.2.2.2.2 [TestOutcome.pass, TestOutcome.fail] (by decide)⟩

/-- Counterexample to C9 as stated: the certificate file exists, the
installation workflow fails, and the script exits 0, not 1. -/
theorem cert_main_failure_exit_zero :
    certMainExit (fun _ => true) false ["cert_installer.py", "mitmproxy-ca-cert.pem"] = 0 :=
  rfl

/-! ### C8 -/

theorem replaceFuel_single (p : Char) (rep : List Char) :
    ∀ (l : List Char) (fuel : Nat), l.length ≤ fuel →
      replaceFuel [p] rep fuel l = expandChar p rep l := by
  intro l
  induction l with
  | nil => intro fuel h; cases fuel <;> simp [replaceFuel, expandChar]
  | cons c rest ih =>
    intro fuel h
    cases fuel with
    | zero => simp at h
    | succ f =>
      have hr : rest.length ≤ f := by simp at h; omega
      by_cases hpc : p = c
      · subst hpc
        simp [replaceFuel, List.isPrefixOf, expandChar, ih f hr]
      · have hb : (p == c) = false := beq_eq_false_iff_ne.mpr hpc
        simp [replaceFuel, List.isPrefixOf, hb, hpc, expandChar, ih f hr]

theorem escapeInputText_eq (t : String) :
    escapeInputText t =
      String.mk (expandChar '\'' ['\\', '\''] (expandChar ' ' ['%', 's'] t.data)) := by
  have e1 : pyReplace t " " "%s" = String.mk (expandChar ' ' ['%', 's'] t.data) := by
    unfold pyReplace
    congr 1
    exact replaceFuel_single ' ' ['%', 's'] t.data (t.data.length + 1) (by omega)
  unfold escapeInputText
  rw [e1]
  unfold pyReplace
  congr 1
  exact replaceFuel_single '\'' ['\\', '\'']
    (expandChar ' ' ['%', 's'] t.data) ((expandChar ' ' ['%', 's'] t.data).length + 1) (by omega)

theorem expand_space_no_space (l : List Char) :
    (expandChar ' ' ['%', 's'] l).all (fun c => !(c == ' ')) = true := by
  induction l with
  | nil => rfl
  | cons c r ih =>
    by_cases hc : ' ' = c
    · subst hc
      simp [expandChar, ih]
    · have hb : (c == ' ') = false := beq_eq_false_iff_ne.mpr (fun h => hc h.symm)
      simp [expandChar, hc, ih, hb]

theorem expand_quote_no_space (l : List Char) (h : l.all (fun c => !(c == ' ')) = true) :
    (expandChar '\'' ['\\', '\''] l).all (fun c => !(c == ' ')) = true := by
  induction l with
  | nil => rfl
  | cons c r ih =>
    simp only [List.all_cons, Bool.and_eq_true] at h
    by_cases hc : '\'' = c
    · subst hc
      simp [expandChar, ih h.2]
    · simp [expandChar, hc, ih h.2, h.1]

theorem expand_quote_escaped (l : List Char) :
    ∀ prev, qbAux prev (expandChar '\'' ['\\', '\''] l) = true := by
  induction l with
  | nil => intro prev; rfl
  | cons c r ih =>
    intro prev
    by_cases hc : '\'' = c
    · subst hc
      simp [expandChar, qbAux, ih]
    · have hc2 : ¬(c = '\'') := fun h => hc h.symm
      simp [expandChar, qbAux, hc, hc2, ih]

/-- Claim C8 (amended): _input_text rewrites every space to the percent-s
token and prefixes every single quote with a backslash before handing the
string to the shell input-text call (so the escaped string contains no bare
space and every single quote carries a backslash); double quotes are NOT
touched.  The escaped text is what reaches the process runner and the
success response echoes the original unescaped text. -/
theorem input_text_escaping :
    (∀ t, noSpaceChar (escapeInputText t) = true) ∧
    (∀ t, singleQuotesEscaped (escapeInputText t) = true) ∧
    (∀ (env : Env) (st : MCP) (t : String), devTruthy st = true →
      (inputText env st t).2 = [(["shell", "input", "text", escapeInputText t], 30)]) ∧
    (∀ (env : Env) (st : MCP) (t : String), devTruthy st = true →
      (serverRunAdb env st ["shell", "input", "text", escapeInputText t] 30).2.2 = 0 →
      (inputText env st t).1 = [Content.text ("Entered text: " ++ t)]) := by
  refine ⟨?_, ?_, ?_, ?_⟩
  · intro t
    rw [escapeInputText_eq]
    exact expand_quote_no_space _ (expand_space_no_space t.data)
  · intro t
    rw [escapeInputText_eq]
    exact expand_quote_escaped _ none
  · intro env st t h
    simp [inputText, h]
    split <;> rfl
  · intro env st t h hc
    simp [inputText, h, hc]

/-- Concrete instance of C8. -/
theorem input_text_escaping_witness :
    noSpaceChar (escapeInputText "hi there") = true ∧
    singleQuotesEscaped (escapeInputText "it's") = true ∧
    (inputText envOk stSel "hi there").2 =
      [(["shell", "input", "text", "hi%sthere"], 30)] ∧
    (inputText envOk stSel "hi there").1 = [Content.text "Entered text: hi there"] :=
  ⟨input_text_escaping.1 "hi there",
   input_text_escaping.2.1 "it's",
   input_text_escaping.2.2.1 envOk stSel "hi there" rfl,
   input_text_escaping.2.2.2 envOk stSel "hi there" rfl rfl⟩

/-- Counterexample to C8 as stated: a double quote is a quote character,
yet the escaping leaves the one-character double-quote string completely
unchanged and passes it bare to the shell invocation. -/
theorem input_text_double_quote_unescaped :
    escapeInputText "\"" = "\"" ∧
    escapedClaimOk (escapeInputText "\"") = false ∧
    (inputText envOk stSel "\"").2 = [(["shell", "input", "text", "\""], 30)] :=
  ⟨rfl, rfl, rfl⟩

/-! ### C3 -/

theorem runsAux_digits :
    ∀ (ds : List Char), (∀ c ∈ ds, c.isDigit = true) →
      ∀ (r acc : List Char), runsAux (ds ++ r) acc = runsAux r (ds.reverse ++ acc) := by
  intro ds
  induction ds with
  | nil => intro _ r acc; simp
  | cons d ds ih =>
    intro h r acc
    have hdd : d.isDigit = true := h d (List.mem_cons_self d ds)
    have h2 : ∀ c ∈ ds, c.isDigit = true := fun cc hcm => h cc (List.mem_cons_of_mem d hcm)
    simp only [List.cons_append, runsAux, hdd, if_true, List.append_eq]
    rw [ih h2 r (d :: acc)]
    congr 1
    simp

theorem runsAux_skip (x : Char) (hx : x.isDigit = false) (r : List Char) :
    runsAux (x :: r) [] = runsAux r [] := by
  simp [runsAux, hx]

theorem runsAux_break (x : Char) (hx : x.isDigit = false) (r acc : List Char)
    (hacc : acc ≠ []) :
    runsAux (x :: r) acc = acc.reverse :: runsAux r [] := by
  cases acc with
  | nil => exact absurd rfl hacc
  | cons a as => simp [runsAux, hx]

theorem runsAux_run (ds : List Char) (hne : ds ≠ [])
    (hdig : ∀ c ∈ ds, c.isDigit = true) (x : Char) (hx : x.isDigit = false)
    (r : List Char) :
    runsAux (ds ++ x :: r) [] = ds :: runsAux r [] := by
  rw [runsAux_digits ds hdig (x :: r) []]
  rw [runsAux_break x hx r (ds.reverse ++ []) (by simp [hne])]
  simp

theorem digitRuns_bounds (a b c d : List Char)
    (ha : a ≠ []) (hb : b ≠ []) (hc : c ≠ []) (hd : d ≠ [])
    (hda : ∀ ch ∈ a, ch.isDigit = true) (hdb : ∀ ch ∈ b, ch.isDigit = true)
    (hdc : ∀ ch ∈ c, ch.isDigit = true) (hdd : ∀ ch ∈ d, ch.isDigit = true) :
    digitRuns (boundsStr a b c d) = [a, b, c, d] := by
  show runsAux ('[' :: (a ++ ',' :: (b ++ ']' :: '[' :: (c ++ ',' :: (d ++ [']']))))) [] =
    [a, b, c, d]
  rw [runsAux_skip '[' (by decide)]
  rw [runsAux_run a ha hda ',' (by decide)]
  rw [runsAux_run b hb hdb ']' (by decide)]
  rw [runsAux_skip '[' (by decide)]
  rw [runsAux_run c hc hdc ',' (by decide)]
  rw [runsAux_run d hd hdd ']' (by decide)]
  rfl

theorem takeDigits_run :
    ∀ (ds : List Char), (∀ c ∈ ds, c.isDigit = true) →
      ∀ (x : Char), x.isDigit = false → ∀ (r : List Char),
        takeDigits (ds ++ x :: r) = (ds, x :: r) := by
  intro ds
  induction ds with
  | nil => intro _ x hx r; simp [takeDigits, hx]
  | cons e es ih =>
    intro h x hx r
    have he : e.isDigit = true := h e (List.mem_cons_self e es)
    have h2 : ∀ c ∈ es, c.isDigit = true := fun cc hcm => h cc (List.mem_cons_of_mem e hcm)
    simp [takeDigits, he, ih h2 x hx r]

theorem certBoundsParse_bounds (a b c d : List Char)
    (ha : a ≠ []) (hb : b ≠ []) (hc : c ≠ []) (hd : d ≠ [])
    (hda : ∀ ch ∈ a, ch.isDigit = true) (hdb : ∀ ch ∈ b, ch.isDigit = true)
    (hdc : ∀ ch ∈ c, ch.isDigit = true) (hdd : ∀ ch ∈ d, ch.isDigit = true) :
    certBoundsParse (boundsStr a b c d) =
      some (digitsToNat a, digitsToNat b, digitsToNat c, digitsToNat d) := by
  obtain ⟨a0, as, rfl⟩ := List.exists_cons_of_ne_nil ha
  obtain ⟨b0, bs, rfl⟩ := List.exists_cons_of_ne_nil hb
  obtain ⟨c0, cs, rfl⟩ := List.exists_cons_of_ne_nil hc
  obtain ⟨d0, ds2, rfl⟩ := List.exists_cons_of_ne_nil hd
  show certBoundsParseL ('[' :: ((a0 :: as) ++ ',' :: ((b0 :: bs) ++ ']' :: '[' ::
    ((c0 :: cs) ++ ',' :: ((d0 :: ds2) ++ [']']))))) = _
  simp only [certBoundsParseL, takeDigits_run (a0 :: as) hda ',' (by decide),
    takeDigits_run (b0 :: bs) hdb ']' (by decide),
    takeDigits_run (c0 :: cs) hdc ',' (by decide),
    takeDigits_run (d0 :: ds2) hdd ']' (by decide)]

/-- Claim C3: for a bounds attribute of the literal bracket form built from
four digit strings, both the server tap-element path and the certificate
installer compute the integer midpoint of the rectangle; in particular the
bounds 10,20 to 110,120 yield (60, 70), and end to end, tapping the demo
node issues the input-tap at exactly (60, 70). -/
theorem bounds_midpoint (a b c d : List Char)
    (ha : a ≠ []) (hb : b ≠ []) (hc : c ≠ []) (hd : d ≠ [])
    (hda : ∀ ch ∈ a, ch.isDigit = true) (hdb : ∀ ch ∈ b, ch.isDigit = true)
    (hdc : ∀ ch ∈ c, ch.isDigit = true) (hdd : ∀ ch ∈ d, ch.isDigit = true) :
    tapPointFromBounds (boundsStr a b c d) =
      some ((digitsToNat a + digitsToNat c) / 2, (digitsToNat b + digitsToNat d) / 2) ∧
    certElementCenter (boundsStr a b c d) =
      some ((digitsToNat a + digitsToNat c) / 2, (digitsToNat b + digitsToNat d) / 2) ∧
    tapPointFromBounds "[10,20][110,120]" = some (60, 70) ∧
    certElementCenter "[10,20][110,120]" = some (60, 70) ∧
    (tapElement envDump stSel demoCrit).1 =
      [Content.text "Tapped at coordinates (60, 70)"] ∧
    (tapElement envDump stSel demoCrit).2 =
      [(["shell", "uiautomator", "dump", "/sdcard/window_dump.xml"], 30),
       (["pull", "/sdcard/window_dump.xml", "/tmp/ui_hierarchy.xml"], 30),
       (["shell", "input", "tap", "60", "70"], 30)] := by
  refine ⟨?_, ?_, rfl, rfl, rfl, rfl⟩
  · simp [tapPointFromBounds, digitRuns_bounds a b c d ha hb hc hd hda hdb hdc hdd]
  · simp [certElementCenter, certBoundsParse_bounds a b c d ha hb hc hd hda hdb hdc hdd]

/-- Concrete instance of C3: digit strings 10, 20, 110, 120. -/
theorem bounds_midpoint_witness :
    tapPointFromBounds (boundsStr ['1', '0'] ['2', '0'] ['1', '1', '0'] ['1', '2', '0']) =
      some (60, 70) :=
  (bounds_midpoint ['1', '0'] ['2', '0'] ['1', '1', '0'] ['1', '2', '0']
    (by decide) (by decide) (by decide) (by decide)
    (by decide) (by decide) (by decide) (by decide)).1

/-! ### C1 -/

/-- Claim C1 (amended): with no device selected (the initial None serial),
every device-scoped handler short-circuits before reaching the process
runner — the recorded call list is empty for all twenty handlers.  All of
them return their "No device selected" message (get_device_info with the
usage hint appended), EXCEPT find_element and tap_element: these delegate
the check to get_ui_hierarchy and then feed its "No device selected." text
into the XML parser, so they return an "Error parsing UI hierarchy" message
instead. -/
theorem no_device_short_circuit (env : Env) (p : String) (c : Criteria)
    (sp f : Option String) (x y sx sy ex ey dur port : Int)
    (k apk pkg host cp cmd rp lp t : String) :
    getDeviceInfo env (mcpInit p) =
      ([Content.text "No device selected. Use list_devices and select_device first."], []) ∧
    captureScreenshot env (mcpInit p) sp = ([Content.text "No device selected."], []) ∧
    getUiHierarchy env (mcpInit p) = ([Content.text "No device selected."], []) ∧
    findElement env (mcpInit p) c =
      ([Content.text "Error parsing UI hierarchy: syntax error"], []) ∧
    tapCoordinates env (mcpInit p) x y = ([Content.text "No device selected."], []) ∧
    tapElement env (mcpInit p) c =
      ([Content.text "Error parsing UI hierarchy: syntax error"], []) ∧
    swipe env (mcpInit p) sx sy ex ey dur = ([Content.text "No device selected."], []) ∧
    inputText env (mcpInit p) t = ([Content.text "No device selected."], []) ∧
    pressKey env (mcpInit p) k = ([Content.text "No device selected."], []) ∧
    installApp env (mcpInit p) apk = ([Content.text "No device selected."], []) ∧
    launchApp env (mcpInit p) pkg = ([Content.text "No device selected."], []) ∧
    stopApp env (mcpInit p) pkg = ([Content.text "No device selected."], []) ∧
    clearAppData env (mcpInit p) pkg = ([Content.text "No device selected."], []) ∧
    listPackages env (mcpInit p) f = ([Content.text "No device selected."], []) ∧
    setupProxy env (mcpInit p) host port = ([Content.text "No device selected."], []) ∧
    clearProxy env (mcpInit p) = ([Content.text "No device selected."], []) ∧
    installCertificate env (mcpInit p) cp = ([Content.text "No device selected."], []) ∧
    executeShell env (mcpInit p) cmd = ([Content.text "No device selected."], []) ∧
    pullFile env (mcpInit p) rp lp = ([Content.text "No device selected."], []) ∧
    pushFile env (mcpInit p) lp rp = ([Content.text "No device selected."], []) :=
  ⟨rfl, rfl, rfl, rfl, rfl, rfl, rfl, rfl, rfl, rfl,
   rfl, rfl, rfl, rfl, rfl, rfl, rfl, rfl, rfl, rfl⟩

/-- Counterexample to C1 as stated: with no device selected, find_element
does not return the "no device selected" message — it reports an XML parse
error (its no-device text does not even contain the phrase), although no
process is invoked. -/
theorem find_element_no_device_message :
    (findElement envOk (mcpInit "adb") ⟨some "Login", none, none, none⟩).1 =
      [Content.text "Error parsing UI hierarchy: syntax error"] ∧
    strContains "Error parsing UI hierarchy: syntax error" "No device selected" = false ∧
    (findElement envOk (mcpInit "adb") ⟨some "Login", none, none, none⟩).2 = [] :=
  ⟨rfl, rfl, rfl⟩

/-! ### C10 -/

/-- Claim C10 (amended): select_device of the empty string succeeds and
reports the empty serial; every device-scoped handler then behaves exactly
as with no device selected (for find_element and tap_element that common
behaviour is the parse-error message, not the "no device selected" one; in
every case no process is invoked), and the built command line omits the -s
flag exactly as with no device. -/
theorem empty_serial_behaves_unselected (env : Env) (st : MCP) (p : String)
    (c : Criteria) (sp f : Option String) (x y sx sy ex ey dur port : Int)
    (k apk pkg host cp cmd rp lp t : String) (args : List String) (timeout : Nat) :
    selectDevice st "" =
      ({ st with current_device := some "" }, [Content.text "Selected device: "], []) ∧
    buildCmd ⟨some "", p⟩ args = p :: args ∧
    buildCmd ⟨none, p⟩ args = p :: args ∧
    serverRunAdb env ⟨some "", p⟩ args timeout = serverRunAdb env ⟨none, p⟩ args timeout ∧
    getDeviceInfo env ⟨some "", p⟩ = getDeviceInfo env ⟨none, p⟩ ∧
    captureScreenshot env ⟨some "", p⟩ sp = captureScreenshot env ⟨none, p⟩ sp ∧
    getUiHierarchy env ⟨some "", p⟩ = getUiHierarchy env ⟨none, p⟩ ∧
    findElement env ⟨some "", p⟩ c = findElement env ⟨none, p⟩ c ∧
    tapCoordinates env ⟨some "", p⟩ x y = tapCoordinates env ⟨none, p⟩ x y ∧
    tapElement env ⟨some "", p⟩ c = tapElement env ⟨none, p⟩ c ∧
    swipe env ⟨some "", p⟩ sx sy ex ey dur = swipe env ⟨none, p⟩ sx sy ex ey dur ∧
    inputText env ⟨some "", p⟩ t = inputText env ⟨none, p⟩ t ∧
    pressKey env ⟨some "", p⟩ k = pressKey env ⟨none, p⟩ k ∧
    installApp env ⟨some "", p⟩ apk = installApp env ⟨none, p⟩ apk ∧
    launchApp env ⟨some "", p⟩ pkg = launchApp env ⟨none, p⟩ pkg ∧
    stopApp env ⟨some "", p⟩ pkg = stopApp env ⟨none, p⟩ pkg ∧
    clearAppData env ⟨some "", p⟩ pkg = clearAppData env ⟨none, p⟩ pkg ∧
    listPackages env ⟨some "", p⟩ f = listPackages env ⟨none, p⟩ f ∧
    setupProxy env ⟨some "", p⟩ host port = setupProxy env ⟨none, p⟩ host port ∧
    clearProxy env ⟨some "", p⟩ = clearProxy env ⟨none, p⟩ ∧
    installCertificate env ⟨some "", p⟩ cp = installCertificate env ⟨none, p⟩ cp ∧
    executeShell env ⟨some "", p⟩ cmd = executeShell env ⟨none, p⟩ cmd ∧
    pullFile env ⟨some "", p⟩ rp lp = pullFile env ⟨none, p⟩ rp lp ∧
    pushFile env ⟨some "", p⟩ lp rp = pushFile env ⟨none, p⟩ lp rp ∧
    tapCoordinates env ⟨some "", p⟩ x y = ([Content.text "No device selected."], []) :=
  ⟨rfl, rfl, rfl, rfl, rfl, rfl, rfl, rfl, rfl, rfl, rfl, rfl, rfl,
   rfl, rfl, rfl, rfl, rfl, rfl, rfl, rfl, rfl, rfl, rfl, rfl⟩

/-- Counterexample to C10 as stated: after selecting the empty serial,
find_element is a device-scoped operation that does NOT return the
"no device selected" message — it reports the parse error (and invokes no
process). -/
theorem empty_serial_find_element_message :
    (selectDevice (mcpInit "adb") "").1 = ⟨some "", "adb"⟩ ∧
    (findElement envOk ⟨some "", "adb"⟩ ⟨none, some "id1", none, none⟩).1 =
      [Content.text "Error parsing UI hierarchy: syntax error"] ∧
    strContains "Error parsing UI hierarchy: syntax error" "No device selected" = false ∧
    (findElement envOk ⟨some "", "adb"⟩ ⟨none, some "id1", none, none⟩).2 = [] :=
  ⟨rfl, rfl, rfl, rfl⟩
